import Mathlib

/-
Verification development for the thubpham/resume-scanner job-upload service.

The embedding models the Python service layer (src/service/job_service.py)
and the HTTP handlers (src/api/job_api.py) over an explicit database-session
state.  JSON values are modelled by the inductive `Json`; Python dictionaries
appearing as JSON objects are association lists.  The text columns of the
`ProcessedJob` table hold `json.dumps` output; since `json.loads` inverts
`json.dumps` on JSON-serializable values, a stored column is modelled as
`Option Json` (`none` = SQL NULL, `some v` = the serialized text of `v`),
and the string round-trip of the serializer itself is treated as identity.
-/

namespace ResumeScanner

/-- JSON values, as produced by the external agent and `model_dump(mode="json")`.
Numbers are modelled as integers; objects as association lists. -/
inductive Json where
  | jnull : Json
  | jbool : Bool → Json
  | jnum : Int → Json
  | jstr : String → Json
  | jarr : List Json → Json
  | jobj : List (String × Json) → Json

/-- Python truthiness of a JSON value (`if structured_job.get(...)`). -/
def jtruthy : Json → Bool
  | Json.jnull => false
  | Json.jbool b => b
  | Json.jnum n => n != 0
  | Json.jstr s => s ≠ ""
  | Json.jarr l => !l.isEmpty
  | Json.jobj l => !l.isEmpty

/-- First-occurrence key lookup in a JSON object (Python dict indexing). -/
def dictLookup : List (String × Json) → String → Option Json
  | [], _ => none
  | (k, v) :: rest, key => if k = key then some v else dictLookup rest key

/-- Key update in a JSON object (`d[key] = v`): replaces the first occurrence,
appends when the key is absent. -/
def dictSet : List (String × Json) → String → Json → List (String × Json)
  | [], key, v => [(key, v)]
  | (k, w) :: rest, key, v =>
      if k = key then (key, v) :: rest else (k, w) :: dictSet rest key v

/-- Whether a JSON value is hashable as a Python object (dicts and lists are not). -/
def jhashable : Json → Bool
  | Json.jarr _ => false
  | Json.jobj _ => false
  | _ => true

/-- The `allowed_locations` enumeration of `JobService._extract_structured_json`
(the Python dict maps each key to itself, so a key list suffices). -/
def allowed_locations : List String :=
  ["Fully Remote", "Remote", "Hybrid", "On-site", "Not Specified", "Multiple Locations"]

/-- Python substring test `"|" in loc` for a one-character needle. -/
def pyContainsChar (s : String) (c : Char) : Bool :=
  s.data.contains c

/-- Helper for `pySplit`: walks the characters, cutting at each separator. -/
def pySplitAux (sep : Char) : List Char → List Char → List String
  | [], acc => [String.mk acc.reverse]
  | c :: rest, acc =>
      if c = sep then String.mk acc.reverse :: pySplitAux sep rest []
      else pySplitAux sep rest (c :: acc)

/-- Python `loc.split("|")` for a one-character separator: splits at every
occurrence, keeping empty pieces. -/
def pySplit (s : String) (sep : Char) : List String :=
  pySplitAux sep s.data []

/-- Python `l.strip()`: removes leading and trailing whitespace. -/
def pyStrip (s : String) : String :=
  String.mk (((s.data.dropWhile Char.isWhitespace).reverse.dropWhile Char.isWhitespace).reverse)

/-- Exceptions of the modelled Python code paths. -/
inductive PyError where
  | typeError : PyError
  | attributeError : PyError
  | validationError : PyError
deriving Repr, DecidableEq

/-- The Python membership test `loc in allowed_locations` / `option in
allowed_locations`: dictionary key membership, which hashes the operand and
raises `TypeError` for unhashable values. -/
def pyInAllowed (v : Json) : Except PyError Bool :=
  if jhashable v then
    Except.ok (match v with
      | Json.jstr s => allowed_locations.contains s
      | _ => false)
  else Except.error PyError.typeError

/-- `[l.strip() for l in loc.split("|")]` from the normalization step. -/
def stripTokens (s : String) : List String :=
  (pySplit s '|').map pyStrip

/-- The `for option in loc_options` loop of the normalization step: sets the
location to the first recognized token and stops, writing "Not Specified"
at each unrecognized token along the way. -/
def locLoop : List String → List (String × Json) → List (String × Json)
  | [], kvs => kvs
  | o :: rest, kvs =>
      if allowed_locations.contains o then
        dictSet kvs "location" (Json.jstr o)
      else
        locLoop rest (dictSet kvs "location" (Json.jstr "Not Specified"))

/-- The `elif loc not in allowed_locations:` branch (job_service.py line 178):
the membership test is outside any try/except, so a `TypeError` raised for an
unhashable `loc` escapes. -/
def elifNotAllowed (loc : Json) (kvs : List (String × Json)) : Except PyError Json :=
  match pyInAllowed loc with
  | Except.error e => Except.error e
  | Except.ok b =>
      Except.ok (Json.jobj (if b then kvs else dictSet kvs "location" (Json.jstr "Not Specified")))

/-- Location normalization of `JobService._extract_structured_json`
(job_service.py lines 134-179), applied to the agent's raw output.

The first membership test sits inside `try/except TypeError` (the except
branch only logs); the composite-string loop and the final `elif` follow.
Note `loc` keeps the value read before the first assignment. -/
def normalizeLocation : Json → Except PyError Json
  | Json.jobj kvs =>
      (match dictLookup kvs "location" with
       | none => Except.ok (Json.jobj kvs)
       | some loc =>
          let kvs1 := match pyInAllowed loc with
            | Except.ok b => if b then kvs else dictSet kvs "location" (Json.jstr "Not Specified")
            | Except.error _ => kvs
          match loc with
          | Json.jstr s =>
              if pyContainsChar s '|' then Except.ok (Json.jobj (locLoop (stripTokens s) kvs1))
              else elifNotAllowed (Json.jstr s) kvs1
          | _ => elifNotAllowed loc kvs1)
  | raw => Except.ok raw

/-- The normalized location the spec describes for a string-valued field:
first recognized trimmed token of a composite value, the value itself when
recognized, "Not Specified" otherwise. -/
def normSpec (s : String) : String :=
  if pyContainsChar s '|' then
    ((stripTokens s).find? (fun t => allowed_locations.contains t)).getD "Not Specified"
  else if allowed_locations.contains s then s
  else "Not Specified"

/-- Modelled from the spec: `StructuredJobModel`
(schema/pydantic/structured_job_pydantic.py, which is not under src/).
Per spec section 3 the structured record holds the optional fields title,
company profile, location, employment type, summary, responsibilities,
qualifications, compensation, application info and extracted keywords, each
independently nullable; the JSON-mode dump of a validated instance is an
object with exactly these keys, so the model carries one JSON value per
field (`jnull` for an absent value). -/
structure StructuredJobModel where
  job_title : Json
  company_profile : Json
  location : Json
  date_posted : Json
  employment_type : Json
  job_summary : Json
  key_responsibilities : Json
  qualifications : Json
  compensation_and_benfits : Json
  application_info : Json
  extracted_keywords : Json

/-- `structured_job.model_dump(mode="json")`: the dictionary the service reads
fields from (job_service.py lines 76-109). -/
def model_dump (m : StructuredJobModel) : List (String × Json) :=
  [("job_title", m.job_title),
   ("company_profile", m.company_profile),
   ("location", m.location),
   ("date_posted", m.date_posted),
   ("employment_type", m.employment_type),
   ("job_summary", m.job_summary),
   ("key_responsibilities", m.key_responsibilities),
   ("qualifications", m.qualifications),
   ("compensation_and_benfits", m.compensation_and_benfits),
   ("application_info", m.application_info),
   ("extracted_keywords", m.extracted_keywords)]

/-- Python `structured_job.get(key)`: `None` when the key is absent. -/
def dgetN (d : List (String × Json)) (key : String) : Json :=
  (dictLookup d key).getD Json.jnull

/-- Python `structured_job.get(key, [])`: empty list when the key is absent. -/
def dgetL (d : List (String × Json)) (key : String) : Json :=
  (dictLookup d key).getD (Json.jarr [])

/-- `JobService._extract_structured_json` (job_service.py lines 118-200):
prompt construction and the agent call are absorbed into the opaque `agent`
parameter; the pydantic `model_validate` step is the `validate` parameter.
A `TypeError` escaping the normalization propagates; a `ValidationError`
is logged and re-raised (line 198); on success the JSON-mode dump of the
validated model is returned. -/
def extract_structured_json (agent : String → Json)
    (validate : Json → Except Unit StructuredJobModel)
    (job_description_text : String) : Except PyError (List (String × Json)) :=
  match normalizeLocation (agent job_description_text) with
  | Except.error e => Except.error e
  | Except.ok normalized =>
      match validate normalized with
      | Except.error _ => Except.error PyError.validationError
      | Except.ok m => Except.ok (model_dump m)

/-- A raw `Job` row (database/job_db.py): the autoincrement surrogate id and
the creation timestamp are outside the model. -/
structure JobRow where
  job_id : String
  resume_id : String
  content : String
deriving Repr, DecidableEq

/-- A `ProcessedJob` row.  Text columns produced by `json.dumps` are
`Option Json` (`none` = NULL, `some v` = the serialized text of `v`);
columns stored without serialization hold the JSON value directly. -/
structure ProcessedJobRow where
  job_id : String
  job_title : Json
  company_profile : Option Json
  location : Option Json
  date_posted : Json
  employment_type : Json
  job_summary : Json
  key_responsibilities : Option Json
  qualifications : Option Json
  compensation_and_benfits : Option Json
  application_info : Option Json
  extracted_keywords : Option Json

/-- The durable relational store: resume identifiers plus the two job tables. -/
structure DB where
  resumes : List String
  jobs : List JobRow
  processed : List ProcessedJobRow

/-- One request's `AsyncSession`: rows added via `db.add` are pending until
`commit` moves them into the committed store.  `queries` counts executed
SELECTs; `commits` counts commits. -/
structure Session where
  committed : DB
  pendingJobs : List JobRow
  pendingProcessed : List ProcessedJobRow
  queries : Nat
  commits : Nat

/-- `self.db.add(job)`. -/
def Session.addJob (s : Session) (j : JobRow) : Session :=
  { s with pendingJobs := s.pendingJobs ++ [j] }

/-- `self.db.add(processed_job)`. -/
def Session.addProcessed (s : Session) (p : ProcessedJobRow) : Session :=
  { s with pendingProcessed := s.pendingProcessed ++ [p] }

/-- `await self.db.commit()`: pending rows become durable. -/
def Session.commit (s : Session) : Session :=
  { committed := { resumes := s.committed.resumes,
                   jobs := s.committed.jobs ++ s.pendingJobs,
                   processed := s.committed.processed ++ s.pendingProcessed },
    pendingJobs := [], pendingProcessed := [],
    queries := s.queries, commits := s.commits + 1 }

/-- `await session.rollback()` (core/database.py teardown): pending rows are
discarded. -/
def Session.rollback (s : Session) : Session :=
  { s with pendingJobs := [], pendingProcessed := [] }

/-- `JobService._is_resume_available`: a SELECT against the resume table. -/
def is_resume_available (s : Session) (resume_id : String) : Bool × Session :=
  (s.committed.resumes.contains resume_id, { s with queries := s.queries + 1 })

/-- Construction of the `ProcessedJob` row (job_service.py lines 76-109):
`key_responsibilities` and `extracted_keywords` are serialized wrapped in a
one-key object, while `qualifications`, `compensation_and_benfits` and
`application_info` are serialized as the bare value; every column is NULL
when the corresponding dump entry is falsy. -/
def mkProcessedJob (job_id : String) (structured_job : List (String × Json)) : ProcessedJobRow :=
  { job_id := job_id,
    job_title := dgetN structured_job "job_title",
    company_profile :=
      if jtruthy (dgetN structured_job "company_profile") then
        some (dgetN structured_job "company_profile")
      else none,
    location :=
      if jtruthy (dgetN structured_job "location") then
        some (dgetN structured_job "location")
      else none,
    date_posted := dgetN structured_job "date_posted",
    employment_type := dgetN structured_job "employment_type",
    job_summary := dgetN structured_job "job_summary",
    key_responsibilities :=
      if jtruthy (dgetN structured_job "key_responsibilities") then
        some (Json.jobj [("key_responsibilities", dgetL structured_job "key_responsibilities")])
      else none,
    qualifications :=
      if jtruthy (dgetN structured_job "qualifications") then
        some (dgetL structured_job "qualifications")
      else none,
    compensation_and_benfits :=
      if jtruthy (dgetN structured_job "compensation_and_benfits") then
        some (dgetL structured_job "compensation_and_benfits")
      else none,
    application_info :=
      if jtruthy (dgetN structured_job "application_info") then
        some (dgetL structured_job "application_info")
      else none,
    extracted_keywords :=
      if jtruthy (dgetN structured_job "extracted_keywords") then
        some (Json.jobj [("extracted_keywords", dgetL structured_job "extracted_keywords")])
      else none }

/-- `JobService._extract_and_store_structured_job` (lines 65-115): on an empty
(falsy) extraction result the function returns `None` without storing; on
success it adds the `ProcessedJob` row, flushes and commits.  Exceptions from
the extraction propagate. -/
def extract_and_store_structured_job (agent : String → Json)
    (validate : Json → Except Unit StructuredJobModel)
    (job_id : String) (job_description_text : String) (s : Session) :
    Except PyError (Option String) × Session :=
  match extract_structured_json agent validate job_description_text with
  | Except.error e => (Except.error e, s)
  | Except.ok structured_job =>
      if structured_job.isEmpty then (Except.ok none, s)
      else
        ((Except.ok (some job_id)),
          ((s.addProcessed (mkProcessedJob job_id structured_job)).commit))

/-- The request payload after `payload.model_dump()` (api/job_api.py line 69):
a resume identifier and the list of job descriptions; `none` models a
dictionary without the `job_descriptions` key, which the service reads with
`job_data.get("job_descriptions", [])`. -/
structure JobData where
  resume_id : String
  job_descriptions : Option (List String)

/-- Exceptions escaping `create_and_store_job` as the API sees them. -/
inductive ServiceError where
  | assertionError : ServiceError
  | pyErr : PyError → ServiceError
deriving Repr, DecidableEq

/-- The per-description loop of `JobService.create_and_store_job`
(lines 38-52): generate an identifier (`gen i` models `str(uuid.uuid4())` for
the i-th description), add the raw `Job` row, run extraction-and-store, and
collect the identifier.  An exception aborts the remaining descriptions. -/
def jobLoop (agent : String → Json) (validate : Json → Except Unit StructuredJobModel)
    (gen : Nat → String) (resume_id : String) :
    Nat → List String → Session → List String → Except PyError (List String) × Session
  | _, [], s, acc => (Except.ok acc.reverse, s)
  | i, job_description :: rest, s, acc =>
      let job_id := gen i
      let s1 := s.addJob { job_id := job_id, resume_id := resume_id, content := job_description }
      match extract_and_store_structured_job agent validate job_id job_description s1 with
      | (Except.error e, s2) => (Except.error e, s2)
      | (Except.ok _, s2) => jobLoop agent validate gen resume_id (i + 1) rest s2 (job_id :: acc)

/-- `JobService.create_and_store_job` (lines 27-55): reject with
`AssertionError` when the resume does not exist, otherwise run the loop and
finish with a commit. -/
def create_and_store_job (agent : String → Json)
    (validate : Json → Except Unit StructuredJobModel) (gen : Nat → String)
    (s : Session) (job_data : JobData) : Except ServiceError (List String) × Session :=
  match is_resume_available s job_data.resume_id with
  | (false, s1) => (Except.error ServiceError.assertionError, s1)
  | (true, s1) =>
      match jobLoop agent validate gen job_data.resume_id 0
          (job_data.job_descriptions.getD []) s1 [] with
      | (Except.error e, s2) => (Except.error (ServiceError.pyErr e), s2)
      | (Except.ok job_ids, s2) => (Except.ok job_ids, s2.commit)

/-- `allowed_content_types` of the upload handler (api/job_api.py line 50). -/
def allowed_content_types : List String :=
  ["application/json"]

/-- Outcome of one upload request: HTTP status, returned job identifiers,
durable database state after session teardown, and the session counters. -/
structure UploadResult where
  status : Nat
  job_ids : Option (List String)
  db : DB
  queries : Nat
  commits : Nat

/-- The `POST /upload` handler `upload_job` (api/job_api.py lines 21-90)
together with the `get_db_session` teardown (core/database.py lines 133-140):
missing or disallowed content type gives 400 before any database use;
`AssertionError` gives 400; any other exception gives 500; exception paths
roll the session back, the success path commits it. -/
def upload_job (agent : String → Json) (validate : Json → Except Unit StructuredJobModel)
    (gen : Nat → String) (content_type : Option String) (payload : JobData)
    (db : DB) : UploadResult :=
  let s0 : Session :=
    { committed := db, pendingJobs := [], pendingProcessed := [], queries := 0, commits := 0 }
  match content_type with
  | none =>
      { status := 400, job_ids := none, db := s0.rollback.committed,
        queries := s0.queries, commits := s0.commits }
  | some ct =>
      if allowed_content_types.contains ct then
        match create_and_store_job agent validate gen s0 payload with
        | (Except.error ServiceError.assertionError, s) =>
            { status := 400, job_ids := none, db := s.rollback.committed,
              queries := s.queries, commits := s.commits }
        | (Except.error (ServiceError.pyErr _), s) =>
            { status := 500, job_ids := none, db := s.rollback.committed,
              queries := s.queries, commits := s.commits }
        | (Except.ok job_ids, s) =>
            let s1 := s.commit
            { status := 200, job_ids := some job_ids, db := s1.committed,
              queries := s1.queries, commits := s1.commits }
      else
        { status := 400, job_ids := none, db := s0.rollback.committed,
          queries := s0.queries, commits := s0.commits }

/-- The `raw_job` section of the combined view (job_service.py lines 228-233);
surrogate id and timestamp are outside the model. -/
structure RawJobView where
  resume_id : String
  content : String

/-- The `processed_job` section of the combined view (lines 238-251). -/
structure ProcessedJobView where
  job_title : Json
  company_profile : Json
  location : Json
  date_posted : Json
  employment_type : Json
  job_summary : Json
  key_responsibilities : Json
  qualifications : Json
  compensation_and_benfits : Json
  application_info : Json
  extracted_keywords : Json

/-- The combined dictionary returned by `get_job_with_processed_data`. -/
structure CombinedData where
  job_id : String
  raw_job : RawJobView
  processed_job : Option ProcessedJobView

/-- Python `value.get(key, [])` on a value freshly produced by `json.loads`:
only dictionaries have a `.get` method, every other shape raises
`AttributeError`. -/
def pyGetMethod (v : Json) (key : String) (dflt : Json) : Except PyError Json :=
  match v with
  | Json.jobj kvs => Except.ok ((dictLookup kvs key).getD dflt)
  | _ => Except.error PyError.attributeError

/-- `json.loads(col) if col else None` for a serialized column: the stored
text of `some v` is nonempty hence truthy and loads back to `v`. -/
def loadsCol : Option Json → Json
  | none => Json.jnull
  | some v => v

/-- `json.loads(col).get(key, []) if col else None` (job_service.py
lines 245-249). -/
def loadsColGet (col : Option Json) (key : String) : Except PyError Json :=
  match col with
  | none => Except.ok Json.jnull
  | some v => pyGetMethod v key (Json.jarr [])

/-- Building the `processed_job` dictionary (lines 238-251), evaluating the
wrapped-field accesses in source order; the first `AttributeError` raised by
a `.get` on a non-dictionary value propagates. -/
def retrieveProcessed (pj : ProcessedJobRow) : Except PyError ProcessedJobView :=
  match loadsColGet pj.key_responsibilities "key_responsibilities" with
  | Except.error e => Except.error e
  | Except.ok kr =>
    match loadsColGet pj.qualifications "qualifications" with
    | Except.error e => Except.error e
    | Except.ok q =>
      match loadsColGet pj.compensation_and_benfits "compensation_and_benfits" with
      | Except.error e => Except.error e
      | Except.ok cb =>
        match loadsColGet pj.application_info "application_info" with
        | Except.error e => Except.error e
        | Except.ok ai =>
          match loadsColGet pj.extracted_keywords "extracted_keywords" with
          | Except.error e => Except.error e
          | Except.ok ek =>
              Except.ok
                { job_title := pj.job_title,
                  company_profile := loadsCol pj.company_profile,
                  location := loadsCol pj.location,
                  date_posted := pj.date_posted,
                  employment_type := pj.employment_type,
                  job_summary := pj.job_summary,
                  key_responsibilities := kr,
                  qualifications := q,
                  compensation_and_benfits := cb,
                  application_info := ai,
                  extracted_keywords := ek }

/-- Errors escaping the body of the `GET` handler. -/
inductive GetJobError where
  | jobNotFound : GetJobError
  | httpException : Nat → GetJobError
  | pyErr : PyError → GetJobError
deriving Repr, DecidableEq

/-- `JobService.get_job_with_processed_data` (lines 202-253): fetch the Job
row (raising `JobNotFoundError` when absent), fetch the ProcessedJob row if
present and deserialize it into the combined view. -/
def get_job_with_processed_data (db : DB) (job_id : String) :
    Except GetJobError CombinedData :=
  match db.jobs.find? (fun j => j.job_id == job_id) with
  | none => Except.error GetJobError.jobNotFound
  | some job =>
      match db.processed.find? (fun p => p.job_id == job_id) with
      | none =>
          Except.ok { job_id := job.job_id,
                      raw_job := { resume_id := job.resume_id, content := job.content },
                      processed_job := none }
      | some pj =>
          match retrieveProcessed pj with
          | Except.error e => Except.error (GetJobError.pyErr e)
          | Except.ok view =>
              Except.ok { job_id := job.job_id,
                          raw_job := { resume_id := job.resume_id, content := job.content },
                          processed_job := some view }

/-- The `GET` handler `get_job` (api/job_api.py lines 97-165).  The body runs
inside one `try`: an empty `job_id` raises `HTTPException(400)` there; the
handlers catch `JobNotFoundError` as 404 and every other exception —
including that `HTTPException` — as 500.  (The `if not job_data` check after
the service call is dead: the service raises instead of returning `None`.) -/
def get_job (db : DB) (job_id : String) : Nat × Option CombinedData :=
  let body : Except GetJobError CombinedData :=
    if job_id = "" then Except.error (GetJobError.httpException 400)
    else get_job_with_processed_data db job_id
  match body with
  | Except.ok d => (200, some d)
  | Except.error GetJobError.jobNotFound => (404, none)
  | Except.error _ => (500, none)

/-- The raw Job rows `create_and_store_job` builds for the descriptions `ds`
when the identifier generator continues from index `i`. -/
def jobRowsFrom (gen : Nat → String) (resume_id : String) : Nat → List String → List JobRow
  | _, [] => []
  | i, d :: rest =>
      { job_id := gen i, resume_id := resume_id, content := d } ::
        jobRowsFrom gen resume_id (i + 1) rest

/- ### Concrete fixtures used by witnesses and counterexamples -/

/-- A store holding the single resume "r1" and no jobs. -/
def db0 : DB := { resumes := ["r1"], jobs := [], processed := [] }

/-- A deterministic stand-in for `str(uuid.uuid4())`: "J0", "J1", ... -/
def genJ : Nat → String := fun i => "J" ++ toString i

/-- An agent returning the description back as a JSON string. -/
def agentEcho : String → Json := fun d => Json.jstr d

/-- A structured job with every field null. -/
def mNull : StructuredJobModel :=
  { job_title := Json.jnull, company_profile := Json.jnull, location := Json.jnull,
    date_posted := Json.jnull, employment_type := Json.jnull, job_summary := Json.jnull,
    key_responsibilities := Json.jnull, qualifications := Json.jnull,
    compensation_and_benfits := Json.jnull, application_info := Json.jnull,
    extracted_keywords := Json.jnull }

/-- A structured job whose qualifications are a nonempty list. -/
def mQual : StructuredJobModel :=
  { mNull with job_title := Json.jstr "Engineer",
               qualifications := Json.jarr [Json.jstr "BSc"] }

/-- A structured job with wrapped-serialization fields set and the
bare-serialization fields null. -/
def mWrapped : StructuredJobModel :=
  { mNull with job_title := Json.jstr "Engineer",
               company_profile := Json.jobj [("name", Json.jstr "Acme")],
               key_responsibilities := Json.jarr [Json.jstr "ship"],
               extracted_keywords := Json.jarr [Json.jstr "lean"] }

/-- A validator that always rejects. -/
def validateFail : Json → Except Unit StructuredJobModel := fun _ => Except.error ()

/-- A validator that always accepts with `mQual`. -/
def validateQual : Json → Except Unit StructuredJobModel := fun _ => Except.ok mQual

/-- A validator that always accepts with `mWrapped`. -/
def validateWrapped : Json → Except Unit StructuredJobModel := fun _ => Except.ok mWrapped

/-- A validator that rejects exactly the output of `agentEcho` on "bad". -/
def validateBad : Json → Except Unit StructuredJobModel := fun raw =>
  match raw with
  | Json.jstr s => if s = "bad" then Except.error () else Except.ok mWrapped
  | _ => Except.ok mWrapped

/- ### Helper lemmas -/

theorem dictSet_dictSet (l : List (String × Json)) (k : String) (a b : Json) :
    dictSet (dictSet l k a) k b = dictSet l k b := by
  induction l with
  | nil => simp [dictSet]
  | cons hd tl ih =>
      obtain ⟨k', v'⟩ := hd
      by_cases h : k' = k
      · simp [dictSet, h]
      · simp [dictSet, h, ih]

theorem dictSet_of_lookup_eq (l : List (String × Json)) (k : String) (v : Json)
    (h : dictLookup l k = some v) : dictSet l k v = l := by
  induction l with
  | nil => simp [dictLookup] at h
  | cons hd tl ih =>
      obtain ⟨k', v'⟩ := hd
      by_cases hk : k' = k
      · subst hk
        simp [dictLookup] at h
        simp [dictSet, h]
      · simp [dictLookup, hk] at h
        simp [dictSet, hk, ih h]

theorem locLoop_eq (opts : List String) (hne : opts ≠ []) (l : List (String × Json)) :
    locLoop opts l =
      dictSet l "location"
        (Json.jstr ((opts.find? (fun t => allowed_locations.contains t)).getD "Not Specified")) := by
  induction opts generalizing l with
  | nil => exact absurd rfl hne
  | cons o rest ih =>
      cases h : allowed_locations.contains o with
      | true =>
          rw [List.find?_cons_of_pos _ h]
          simp only [locLoop]
          rw [h]
          simp
      | false =>
          rw [List.find?_cons_of_neg _ (by intro hc; rw [h] at hc; exact Bool.false_ne_true hc)]
          simp only [locLoop]
          rw [h]
          simp only [Bool.false_eq_true, if_false]
          rcases rest with _ | ⟨o', rest'⟩
          · simp [locLoop, List.find?]
          · rw [ih (by simp) (dictSet l "location" (Json.jstr "Not Specified")), dictSet_dictSet]

theorem allowed_no_bar (s : String) (h : allowed_locations.contains s = true) :
    pyContainsChar s '|' = false := by
  simp only [allowed_locations, List.contains_cons, List.contains_nil,
    Bool.or_eq_true, beq_iff_eq] at h
  rcases h with rfl | rfl | rfl | rfl | rfl | rfl | h
  · rfl
  · rfl
  · rfl
  · rfl
  · rfl
  · rfl
  · simp at h

theorem extract_ok_not_empty (agent : String → Json)
    (validate : Json → Except Unit StructuredJobModel) (d : String)
    (dump : List (String × Json))
    (h : extract_structured_json agent validate d = Except.ok dump) :
    dump.isEmpty = false := by
  unfold extract_structured_json at h
  split at h
  · simp at h
  · split at h
    · simp at h
    · injection h with h
      subst h
      rfl

/- ### Claim theorems -/

/-- C4: for a string-valued location field, normalization replaces it by
`normSpec`: for a '|'-delimited composite value, the first trimmed token that
belongs to the allowed enumeration (or "Not Specified" when none is); for a
non-composite value, the value itself when it belongs to the enumeration and
"Not Specified" otherwise. -/
theorem location_normalization_of_string (kvs : List (String × Json)) (s : String)
    (hloc : dictLookup kvs "location" = some (Json.jstr s)) :
    normalizeLocation (Json.jobj kvs) =
      Except.ok (Json.jobj (dictSet kvs "location" (Json.jstr (normSpec s)))) := by
  have hpy : pyInAllowed (Json.jstr s) = Except.ok (allowed_locations.contains s) := rfl
  simp only [normalizeLocation, normSpec, hloc, hpy]
  cases hbar : pyContainsChar s '|' with
  | true =>
      have hc : allowed_locations.contains s = false := by
        cases hc2 : allowed_locations.contains s with
        | false => rfl
        | true => rw [allowed_no_bar s hc2] at hbar; cases hbar
      rw [hc]
      simp only [Bool.false_eq_true, if_false, if_true]
      rcases hst : stripTokens s with _ | ⟨t, ts⟩
      · simp [locLoop, hst, List.find?]
      · rw [locLoop_eq _ (by simp), dictSet_dictSet]
  | false =>
      simp only [elifNotAllowed, hpy, Bool.false_eq_true, if_false]
      cases hc : allowed_locations.contains s with
      | true =>
          simp only [if_true]
          rw [dictSet_of_lookup_eq kvs "location" (Json.jstr s) hloc]
      | false =>
          simp only [Bool.false_eq_true, if_false, dictSet_dictSet]

/-- C4 witness: `"Remote | Hybrid"` normalizes to `"Remote"`. -/
theorem location_normalization_of_string_witness :
    normalizeLocation (Json.jobj [("location", Json.jstr "Remote | Hybrid")]) =
      Except.ok (Json.jobj [("location", Json.jstr "Remote")]) := by
  rw [location_normalization_of_string [("location", Json.jstr "Remote | Hybrid")]
    "Remote | Hybrid" rfl]
  rfl

/-- C5: the normalization step is NOT total: a dictionary-valued location
reaches the unprotected `elif loc not in allowed_locations` membership test
(job_service.py line 178) and raises `TypeError` instead of defaulting the
field to "Not Specified" — even though the `except TypeError` branch above it
logs that it is "Defaulting to 'Not Specified'". -/
theorem location_normalization_raises_on_dict :
    normalizeLocation (Json.jobj [("location", Json.jobj [("city", Json.jstr "Hanoi")])]) =
      Except.error PyError.typeError := rfl

/-- C9: an upload whose Content-Type header is missing or differs from
"application/json" is answered 400 with no database query executed and the
durable store untouched. -/
theorem upload_bad_content_type_no_db_access (agent : String → Json)
    (validate : Json → Except Unit StructuredJobModel)
    (gen : Nat → String) (ct : Option String) (payload : JobData) (db : DB)
    (h : ct ≠ some "application/json") :
    (upload_job agent validate gen ct payload db).status = 400 ∧
    (upload_job agent validate gen ct payload db).db = db ∧
    (upload_job agent validate gen ct payload db).queries = 0 ∧
    (upload_job agent validate gen ct payload db).job_ids = none := by
  cases ct with
  | none => exact ⟨rfl, rfl, rfl, rfl⟩
  | some c =>
      have hne : c ≠ "application/json" := by intro hh; exact h (by rw [hh])
      have hc : c ∉ allowed_content_types := by
        simp [allowed_content_types, hne]
      simp [upload_job, hc, Session.rollback]

/-- C9 witness at Content-Type "text/plain". -/
theorem upload_bad_content_type_no_db_access_witness :
    (upload_job agentEcho validateFail genJ (some "text/plain") ⟨"r1", some ["d"]⟩ db0).status = 400 ∧
    (upload_job agentEcho validateFail genJ (some "text/plain") ⟨"r1", some ["d"]⟩ db0).db = db0 ∧
    (upload_job agentEcho validateFail genJ (some "text/plain") ⟨"r1", some ["d"]⟩ db0).queries = 0 ∧
    (upload_job agentEcho validateFail genJ (some "text/plain") ⟨"r1", some ["d"]⟩ db0).job_ids = none :=
  upload_bad_content_type_no_db_access agentEcho validateFail genJ (some "text/plain")
    ⟨"r1", some ["d"]⟩ db0 (by decide)

/-- C3: an upload naming a resume identifier with no Resume record is answered
400 and leaves the durable store unchanged (no Job and no ProcessedJob row). -/
theorem upload_nonexistent_resume_rejected (agent : String → Json)
    (validate : Json → Except Unit StructuredJobModel)
    (gen : Nat → String) (payload : JobData) (db : DB)
    (h : db.resumes.contains payload.resume_id = false) :
    (upload_job agent validate gen (some "application/json") payload db).status = 400 ∧
    (upload_job agent validate gen (some "application/json") payload db).db = db ∧
    (upload_job agent validate gen (some "application/json") payload db).job_ids = none := by
  have h' : payload.resume_id ∉ db.resumes := by simpa using h
  simp [upload_job, create_and_store_job, is_resume_available, h', allowed_content_types,
    Session.rollback]

/-- C3 witness at resume identifier "ghost". -/
theorem upload_nonexistent_resume_rejected_witness :
    (upload_job agentEcho validateFail genJ (some "application/json") ⟨"ghost", some ["d"]⟩ db0).status = 400 ∧
    (upload_job agentEcho validateFail genJ (some "application/json") ⟨"ghost", some ["d"]⟩ db0).db = db0 ∧
    (upload_job agentEcho validateFail genJ (some "application/json") ⟨"ghost", some ["d"]⟩ db0).job_ids = none :=
  upload_nonexistent_resume_rejected agentEcho validateFail genJ ⟨"ghost", some ["d"]⟩ db0 (by decide)

/-- C10: an upload with an empty (or absent) job_descriptions list for an
existing resume succeeds with an empty identifier list and writes nothing. -/
theorem upload_empty_descriptions_ok (agent : String → Json)
    (validate : Json → Except Unit StructuredJobModel)
    (gen : Nat → String) (rid : String) (descs : Option (List String)) (db : DB)
    (hres : db.resumes.contains rid = true)
    (hd : descs = none ∨ descs = some []) :
    (upload_job agent validate gen (some "application/json") ⟨rid, descs⟩ db).status = 200 ∧
    (upload_job agent validate gen (some "application/json") ⟨rid, descs⟩ db).job_ids = some [] ∧
    (upload_job agent validate gen (some "application/json") ⟨rid, descs⟩ db).db = db := by
  have hres' : rid ∈ db.resumes := by simpa using hres
  rcases hd with rfl | rfl <;>
    simp [upload_job, create_and_store_job, is_resume_available, hres', jobLoop,
      Session.commit, Session.rollback, allowed_content_types]

/-- C10 witness at an explicit empty list for resume "r1". -/
theorem upload_empty_descriptions_ok_witness :
    (upload_job agentEcho validateFail genJ (some "application/json") ⟨"r1", some []⟩ db0).status = 200 ∧
    (upload_job agentEcho validateFail genJ (some "application/json") ⟨"r1", some []⟩ db0).job_ids = some [] ∧
    (upload_job agentEcho validateFail genJ (some "application/json") ⟨"r1", some []⟩ db0).db = db0 :=
  upload_empty_descriptions_ok agentEcho validateFail genJ "r1" (some []) db0 (by decide) (Or.inr rfl)

/-- The descriptions preceding a failing one are each committed in turn, so a
failure at description k leaves exactly the raw Job rows and ProcessedJob
rows of the earlier descriptions durable, the failing description's pending
Job row uncommitted, and one commit per earlier description. -/
theorem jobLoop_ok_then_fail (agent : String → Json)
    (validate : Json → Except Unit StructuredJobModel) (gen : Nat → String)
    (rid dk : String) (post : List String) (e : PyError)
    (hk : extract_structured_json agent validate dk = Except.error e) :
    ∀ (pre : List String) (i : Nat) (s : Session) (acc : List String),
    s.pendingJobs = [] → s.pendingProcessed = [] →
    (∀ d ∈ pre, ∃ dump, extract_structured_json agent validate d = Except.ok dump) →
    ∃ prs : List ProcessedJobRow,
      jobLoop agent validate gen rid i (pre ++ dk :: post) s acc =
        (Except.error e,
         { committed := { resumes := s.committed.resumes,
                          jobs := s.committed.jobs ++ jobRowsFrom gen rid i pre,
                          processed := s.committed.processed ++ prs },
           pendingJobs := [{ job_id := gen (i + pre.length), resume_id := rid, content := dk }],
           pendingProcessed := [],
           queries := s.queries,
           commits := s.commits + pre.length }) ∧
      prs.length = pre.length := by
  intro pre
  induction pre with
  | nil =>
      intro i s acc hpj hpp hpre
      refine ⟨[], ?_, rfl⟩
      obtain ⟨⟨res, jobs, proc⟩, pj0, pp0, q, cm⟩ := s
      simp only at hpj hpp
      subst hpj; subst hpp
      simp [jobLoop, extract_and_store_structured_job, hk, Session.addJob, jobRowsFrom]
  | cons d pre' ih =>
      intro i s acc hpj hpp hpre
      obtain ⟨dump, hd⟩ := hpre d (by simp)
      have hne := extract_ok_not_empty agent validate d dump hd
      obtain ⟨⟨res, jobs, proc⟩, pj0, pp0, q, cm⟩ := s
      simp only at hpj hpp
      subst hpj; subst hpp
      have hstep : jobLoop agent validate gen rid i ((d :: pre') ++ dk :: post)
          { committed := { resumes := res, jobs := jobs, processed := proc },
            pendingJobs := [], pendingProcessed := [], queries := q, commits := cm } acc =
          jobLoop agent validate gen rid (i + 1) (pre' ++ dk :: post)
            { committed := { resumes := res,
                             jobs := jobs ++ [{ job_id := gen i, resume_id := rid, content := d }],
                             processed := proc ++ [mkProcessedJob (gen i) dump] },
              pendingJobs := [], pendingProcessed := [], queries := q, commits := cm + 1 }
            (gen i :: acc) := by
        simp [jobLoop, extract_and_store_structured_job, hd, hne, Session.addJob,
          Session.addProcessed, Session.commit]
      rw [hstep]
      obtain ⟨prs', heq, hlen⟩ := ih (i + 1)
        { committed := { resumes := res,
                         jobs := jobs ++ [{ job_id := gen i, resume_id := rid, content := d }],
                         processed := proc ++ [mkProcessedJob (gen i) dump] },
          pendingJobs := [], pendingProcessed := [], queries := q, commits := cm + 1 }
        (gen i :: acc) rfl rfl (fun d' hd' => hpre d' (by simp [hd']))
      refine ⟨mkProcessedJob (gen i) dump :: prs', ?_, by simp [hlen]⟩
      rw [heq]
      simp [jobRowsFrom, List.append_assoc]
      constructor
      · exact congrArg gen (by omega)
      · omega

/-- C7: with a batch `pre ++ [dk] ++ post` in which every description of
`pre` extracts successfully and `dk` fails, the upload answers 500, the
durable store gains exactly one raw Job row per description of `pre` (in list
order, with their generated identifiers) plus one ProcessedJob row each, the
descriptions after `dk` are never attempted, and each successful description
got its own commit. -/
theorem batch_failure_partial_persistence (agent : String → Json)
    (validate : Json → Except Unit StructuredJobModel)
    (gen : Nat → String) (rid : String) (pre : List String) (dk : String) (post : List String)
    (db : DB) (e : PyError)
    (hres : db.resumes.contains rid = true)
    (hpre : ∀ d ∈ pre, ∃ dump, extract_structured_json agent validate d = Except.ok dump)
    (hk : extract_structured_json agent validate dk = Except.error e) :
    ∃ prs : List ProcessedJobRow,
      (upload_job agent validate gen (some "application/json") ⟨rid, some (pre ++ dk :: post)⟩ db).status = 500 ∧
      (upload_job agent validate gen (some "application/json") ⟨rid, some (pre ++ dk :: post)⟩ db).db =
        { resumes := db.resumes, jobs := db.jobs ++ jobRowsFrom gen rid 0 pre,
          processed := db.processed ++ prs } ∧
      prs.length = pre.length ∧
      (upload_job agent validate gen (some "application/json") ⟨rid, some (pre ++ dk :: post)⟩ db).commits = pre.length := by
  have hres' : rid ∈ db.resumes := by simpa using hres
  obtain ⟨prs, heq, hlen⟩ := jobLoop_ok_then_fail agent validate gen rid dk post e hk pre 0
    { committed := db, pendingJobs := [], pendingProcessed := [], queries := 1, commits := 0 }
    [] rfl rfl hpre
  refine ⟨prs, ?_⟩
  simp [upload_job, create_and_store_job, is_resume_available, hres', allowed_content_types,
    heq, Session.rollback, hlen]

/-- C7 witness: batch ["a", "bad", "c"] where "bad" fails validation — the
job for "a" is durable with its ProcessedJob row and one commit; nothing is
written for "bad" or "c". -/
theorem batch_failure_partial_persistence_witness :
    (upload_job agentEcho validateBad genJ (some "application/json") ⟨"r1", some ["a", "bad", "c"]⟩ db0).status = 500 ∧
    (upload_job agentEcho validateBad genJ (some "application/json") ⟨"r1", some ["a", "bad", "c"]⟩ db0).db.jobs =
      [({ job_id := genJ 0, resume_id := "r1", content := "a" } : JobRow)] ∧
    (upload_job agentEcho validateBad genJ (some "application/json") ⟨"r1", some ["a", "bad", "c"]⟩ db0).db.processed.length = 1 ∧
    (upload_job agentEcho validateBad genJ (some "application/json") ⟨"r1", some ["a", "bad", "c"]⟩ db0).commits = 1 := by
  obtain ⟨prs, h1, h2, h3, h4⟩ := batch_failure_partial_persistence agentEcho validateBad genJ
    "r1" ["a"] "bad" ["c"] db0 PyError.validationError (by decide)
    (by intro d' hd'
        simp at hd'
        subst hd'
        exact ⟨model_dump mWrapped, rfl⟩)
    rfl
  simp only [List.cons_append, List.nil_append] at h1 h2 h3 h4
  refine ⟨h1, ?_, ?_, by simpa using h4⟩
  · rw [h2]
    rfl
  · rw [h2]
    simpa [db0] using h3

/-- C1 counterexample: a single-description upload whose extraction fails
validation answers 500 and leaves NO raw Job row — the pending row is rolled
back with the aborted request, so the job is not retrievable afterwards,
contradicting the claim that the raw Job row persists. -/
theorem extraction_failure_drops_raw_job_counterexample :
    (upload_job agentEcho validateFail genJ (some "application/json") ⟨"r1", some ["bad job"]⟩ db0).status = 500 ∧
    (upload_job agentEcho validateFail genJ (some "application/json") ⟨"r1", some ["bad job"]⟩ db0).db.jobs = [] ∧
    get_job (upload_job agentEcho validateFail genJ (some "application/json") ⟨"r1", some ["bad job"]⟩ db0).db (genJ 0) =
      (404, none) := ⟨rfl, rfl, rfl⟩

/-- C1 amended: when the only description's extraction raises, the upload
answers 500 and the durable store is completely unchanged — neither the raw
Job row (rolled back before any commit) nor a ProcessedJob row exists, and
retrieval by the generated identifier yields 404. -/
theorem extraction_failure_no_rows_persisted (agent : String → Json)
    (validate : Json → Except Unit StructuredJobModel)
    (gen : Nat → String) (rid d : String) (db : DB) (e : PyError)
    (hres : db.resumes.contains rid = true)
    (hfail : extract_structured_json agent validate d = Except.error e)
    (hfresh : db.jobs.find? (fun j => j.job_id == gen 0) = none)
    (hne : gen 0 ≠ "") :
    (upload_job agent validate gen (some "application/json") ⟨rid, some [d]⟩ db).status = 500 ∧
    (upload_job agent validate gen (some "application/json") ⟨rid, some [d]⟩ db).db = db ∧
    get_job (upload_job agent validate gen (some "application/json") ⟨rid, some [d]⟩ db).db (gen 0) =
      (404, none) := by
  have hres' : rid ∈ db.resumes := by simpa using hres
  obtain ⟨prs, heq, hlen⟩ := jobLoop_ok_then_fail agent validate gen rid d [] e hfail [] 0
    { committed := db, pendingJobs := [], pendingProcessed := [], queries := 1, commits := 0 }
    [] rfl rfl (by intro d' hd'; cases hd')
  have hprs : prs = [] := List.eq_nil_of_length_eq_zero hlen
  subst hprs
  simp only [List.nil_append, List.append_nil, jobRowsFrom, List.length_nil, Nat.add_zero] at heq
  have hdb : (upload_job agent validate gen (some "application/json") ⟨rid, some [d]⟩ db).db = db := by
    simp [upload_job, create_and_store_job, is_resume_available, hres', allowed_content_types,
      heq, Session.rollback, jobRowsFrom]
  refine ⟨?_, hdb, ?_⟩
  · simp [upload_job, create_and_store_job, is_resume_available, hres', allowed_content_types,
      heq, Session.rollback]
  · rw [hdb]
    simp [get_job, get_job_with_processed_data, hfresh, hne]

/-- C1 (amended) witness at description "bad job" against a store holding
only resume "r1". -/
theorem extraction_failure_no_rows_persisted_witness :
    (upload_job agentEcho validateFail genJ (some "application/json") ⟨"r1", some ["bad job"]⟩ db0).status = 500 ∧
    (upload_job agentEcho validateFail genJ (some "application/json") ⟨"r1", some ["bad job"]⟩ db0).db = db0 ∧
    get_job (upload_job agentEcho validateFail genJ (some "application/json") ⟨"r1", some ["bad job"]⟩ db0).db (genJ 0) =
      (404, none) :=
  extraction_failure_no_rows_persisted agentEcho validateFail genJ "r1" "bad job" db0
    PyError.validationError (by decide) rfl rfl (by decide)

/-- C2: the store/retrieve pair is NOT a round-trip for `qualifications`
(nor `compensation_and_benfits`, `application_info`): the store side
serializes the bare list, but the retrieve side calls `.get("qualifications")
` on the loaded value, which raises `AttributeError` on a list, so the stored
value is never reconstituted. -/
theorem qualifications_store_retrieve_mismatch :
    (mkProcessedJob "J0" (model_dump mQual)).qualifications = some (Json.jarr [Json.jstr "BSc"]) ∧
    retrieveProcessed (mkProcessedJob "J0" (model_dump mQual)) = Except.error PyError.attributeError :=
  ⟨rfl, rfl⟩

/-- C8 counterexample: an upload that succeeds (200, identifier returned) but
whose stored ProcessedJob row has a list-valued `qualifications` column; the
subsequent retrieval by the returned identifier answers 500 with no record,
so the raw content is not retrievable. -/
theorem upload_success_retrieval_500_counterexample :
    (upload_job agentEcho validateQual genJ (some "application/json") ⟨"r1", some ["desc"]⟩ db0).status = 200 ∧
    (upload_job agentEcho validateQual genJ (some "application/json") ⟨"r1", some ["desc"]⟩ db0).job_ids = some [genJ 0] ∧
    get_job (upload_job agentEcho validateQual genJ (some "application/json") ⟨"r1", some ["desc"]⟩ db0).db (genJ 0) =
      (500, none) := ⟨rfl, rfl, rfl⟩

/-- C8 amended: a successfully uploaded description is retrievable with raw
content exactly the uploaded text, provided the extracted `qualifications`,
`compensation_and_benfits` and `application_info` values are falsy (stored
NULL) — otherwise the retrieval's broken deserialization of those columns
raises and answers 500 instead. -/
theorem upload_retrieve_raw_content (agent : String → Json)
    (validate : Json → Except Unit StructuredJobModel)
    (gen : Nat → String) (rid d : String) (db : DB) (dump : List (String × Json))
    (hres : db.resumes.contains rid = true)
    (hext : extract_structured_json agent validate d = Except.ok dump)
    (hq : jtruthy (dgetN dump "qualifications") = false)
    (hcb : jtruthy (dgetN dump "compensation_and_benfits") = false)
    (hai : jtruthy (dgetN dump "application_info") = false)
    (hfresh : db.jobs.find? (fun j => j.job_id == gen 0) = none)
    (hfreshP : db.processed.find? (fun p => p.job_id == gen 0) = none)
    (hne : gen 0 ≠ "") :
    (upload_job agent validate gen (some "application/json") ⟨rid, some [d]⟩ db).status = 200 ∧
    (upload_job agent validate gen (some "application/json") ⟨rid, some [d]⟩ db).job_ids = some [gen 0] ∧
    ∃ cd : CombinedData,
      get_job (upload_job agent validate gen (some "application/json") ⟨rid, some [d]⟩ db).db (gen 0) =
        (200, some cd) ∧ cd.raw_job.content = d := by
  have hnemp := extract_ok_not_empty agent validate d dump hext
  have hres' : rid ∈ db.resumes := by simpa using hres
  have hdb : (upload_job agent validate gen (some "application/json") ⟨rid, some [d]⟩ db).db =
      { resumes := db.resumes,
        jobs := db.jobs ++ [{ job_id := gen 0, resume_id := rid, content := d }],
        processed := db.processed ++ [mkProcessedJob (gen 0) dump] } := by
    simp [upload_job, create_and_store_job, is_resume_available, hres', allowed_content_types,
      jobLoop, extract_and_store_structured_job, hext, hnemp, Session.addJob,
      Session.addProcessed, Session.commit]
  have hstatus : (upload_job agent validate gen (some "application/json") ⟨rid, some [d]⟩ db).status = 200 := by
    simp [upload_job, create_and_store_job, is_resume_available, hres', allowed_content_types,
      jobLoop, extract_and_store_structured_job, hext, hnemp, Session.addJob,
      Session.addProcessed, Session.commit]
  have hids : (upload_job agent validate gen (some "application/json") ⟨rid, some [d]⟩ db).job_ids = some [gen 0] := by
    simp [upload_job, create_and_store_job, is_resume_available, hres', allowed_content_types,
      jobLoop, extract_and_store_structured_job, hext, hnemp, Session.addJob,
      Session.addProcessed, Session.commit]
  have hret : ∃ view, retrieveProcessed (mkProcessedJob (gen 0) dump) = Except.ok view := by
    simp only [retrieveProcessed, mkProcessedJob, hq, hcb, hai, Bool.false_eq_true, if_false]
    cases jtruthy (dgetN dump "key_responsibilities") <;>
      cases jtruthy (dgetN dump "extracted_keywords") <;>
        simp [loadsColGet, pyGetMethod, dictLookup]
  obtain ⟨view, hview⟩ := hret
  refine ⟨hstatus, hids, ?_⟩
  refine ⟨{ job_id := gen 0,
            raw_job := { resume_id := rid, content := d },
            processed_job := some view }, ?_, rfl⟩
  have hpj : (mkProcessedJob (gen 0) dump).job_id = gen 0 := rfl
  rw [hdb]
  simp [get_job, get_job_with_processed_data, hne, List.find?_append, hfresh, hfreshP,
    hpj, hview]

/-- C8 (amended) witness: description "mydesc" whose extraction stores only
wrapped-serialization fields; retrieval answers 200 with raw content
"mydesc". -/
theorem upload_retrieve_raw_content_witness :
    (upload_job agentEcho validateWrapped genJ (some "application/json") ⟨"r1", some ["mydesc"]⟩ db0).status = 200 ∧
    (upload_job agentEcho validateWrapped genJ (some "application/json") ⟨"r1", some ["mydesc"]⟩ db0).job_ids = some [genJ 0] ∧
    (get_job (upload_job agentEcho validateWrapped genJ (some "application/json") ⟨"r1", some ["mydesc"]⟩ db0).db (genJ 0)).1 = 200 ∧
    Option.map (fun cd => cd.raw_job.content)
      (get_job (upload_job agentEcho validateWrapped genJ (some "application/json") ⟨"r1", some ["mydesc"]⟩ db0).db (genJ 0)).2 =
      some "mydesc" := by
  obtain ⟨h1, h2, cd, h3, h4⟩ := upload_retrieve_raw_content agentEcho validateWrapped genJ
    "r1" "mydesc" db0 (model_dump mWrapped) (by decide) rfl rfl rfl rfl rfl rfl (by decide)
  refine ⟨h1, h2, by rw [h3], by rw [h3]; simpa using h4⟩

/-- C6 counterexample: the empty job identifier matches no Job row, yet the
retrieval answers 500, not 404 — the handler's own `HTTPException(400)` is
raised inside the `try` and re-mapped by the generic `except Exception`
handler to a 500. -/
theorem empty_job_id_returns_500 :
    get_job db0 "" = (500, none) ∧
    db0.jobs.find? (fun j => j.job_id == "") = none := ⟨rfl, rfl⟩

/-- C6 amended: every NON-EMPTY job identifier matching no Job row is
answered 404 (never 500); the empty identifier instead yields 500. -/
theorem missing_job_returns_404 (db : DB) (job_id : String) (hne : job_id ≠ "")
    (hmiss : db.jobs.find? (fun j => j.job_id == job_id) = none) :
    get_job db job_id = (404, none) := by
  simp [get_job, get_job_with_processed_data, hne, hmiss]

/-- C6 (amended) witness at identifier "nope". -/
theorem missing_job_returns_404_witness :
    get_job db0 "nope" = (404, none) :=
  missing_job_returns_404 db0 "nope" (by decide) rfl

end ResumeScanner
